import Mathlib

/-!
Shallow embedding of the `vizier` repository excerpt, covering:

* `src/vizier/_src/algorithms/designers/cmaes.py` — `CMAESDesigner`
  (`__init__` validation, the batched `update` accumulator, `suggest`);
* `src/vizier/service/vizier_service.py` — `DefaultVizierService.__init__`
  configuration and the endpoint handshake;
* the datastore `UpdateMetadata` merge exercised by
  `src/vizier/service/datastore_test.py` (the store implementation itself is
  not part of the excerpt and is modelled from the spec).

Machine integers/floats from the source are embedded as `Int`/`Nat`; objective
measurements are embedded as `Int` (only their negation and identity matter to
the properties below, never rounding).
-/

namespace Vizier

/-! ## Data model (pyvizier side, as used by `cmaes.py`) -/

/-- Embeds `vz.ObjectiveMetricGoal` — the objective goal enum. -/
inductive ObjectiveMetricGoal where
  | MAXIMIZE
  | MINIMIZE
deriving DecidableEq, Repr

/-- Embeds `vz.ParameterType` — parameter type enum (the members used by the excerpt). -/
inductive ParameterType where
  | DOUBLE
  | INTEGER
  | CATEGORICAL
  | DISCRETE
deriving DecidableEq, Repr

/-- A single metric description: a name and an optimization goal
(spec §3: "objective metric name + goal \x7bMINIMIZE, MAXIMIZE\x7d"). -/
structure MetricInformation where
  name : String
  goal : ObjectiveMetricGoal
deriving DecidableEq, Repr

/-- One parameter configuration of a search space. -/
structure ParameterConfig where
  name : String
  type : ParameterType
deriving DecidableEq, Repr

/-- A search space: a conditionality flag and its top-level parameters. -/
structure SearchSpace where
  is_conditional : Bool
  parameters : List ParameterConfig
deriving DecidableEq, Repr

/-- Embeds `vz.ProblemStatement` as consumed by `CMAESDesigner`: a search space and a
single objective metric (`metric_information.item()` returns the unique one). -/
structure ProblemStatement where
  search_space : SearchSpace
  metric_information : MetricInformation
deriving DecidableEq, Repr

/-- A completed trial as seen through `TrialToArrayConverter.to_xy`: its
feature row (parameter values) and its objective measurement (label). -/
structure Trial where
  params : List Int
  objective : Int
deriving DecidableEq, Repr

/-- Python `==` between a `MetricInformation` object and an
`ObjectiveMetricGoal` enum member, as written on line 68 of `cmaes.py`
(`self._problem_statement.metric_information.item() ==
vz.ObjectiveMetricGoal.MINIMIZE`). The two operands have different types and
neither class defines cross-type equality (`MetricInformation` is a plain
attrs data class, `ObjectiveMetricGoal` an enum with identity-based `__eq__`),
so the Python comparison evaluates to `False` for every pair of operands. -/
def metricInfoEqGoal (_mi : MetricInformation) (_g : ObjectiveMetricGoal) : Bool :=
  false

/-! ## CMAESDesigner.__init__ validation (`cmaes.py` lines 25–47) -/

/-- The constructor validation of `CMAESDesigner.__init__`:
raise on a conditional search space, raise on any non-DOUBLE parameter
(the `for` loop raises at the first offending parameter, embedded as `any`),
raise when fewer than 2 parameters. -/
def initValidate (ss : SearchSpace) : Except String Unit :=
  if ss.is_conditional then
    .error "This designer does not support conditional search."
  else if ss.parameters.any (fun pc => pc.type != ParameterType.DOUBLE) then
    .error "This designer only supports continuous parameters."
  else if ss.parameters.length < 2 then
    .error "CMA-ES only supports search spaces with >=2 parameters."
  else
    .ok ()

/-! ## CMAESDesigner.update (`cmaes.py` lines 56–76) -/

/-- The mutable state of a `CMAESDesigner` relevant to `update`:
* `popSize` — `self._cma_es_jax.hyper_parameters.pop_size`, the `maxsize` of
  the `queue.Queue`;
* `buffer` — the contents of `self._trial_population.queue`, in insertion
  order (`put` appends at the right end of the underlying deque);
* `told` — ghost log of the trial batches consumed by successive
  `self._cma_es_jax.tell` calls, in order;
* `fitnessLog` — ghost log of the `fitness` vectors handed to those `tell`
  calls (i.e. `labels[:, 0]` after the conditional negation). -/
structure CMAESState where
  popSize : Nat
  buffer : List Trial
  told : List (List Trial)
  fitnessLog : List (List Int)
deriving DecidableEq, Repr

/-- The designer state right after `__init__`: an empty queue with
`maxsize = pop_size` and no backend updates yet. -/
def initState (popSize : Nat) : CMAESState :=
  { popSize := popSize, buffer := [], told := [], fitnessLog := [] }

/-- The `fitness` vector handed to `self._cma_es_jax.tell` for one full
buffer: `labels = converter.to_xy(...)[1]` (the objective column), negated
when the Python condition `metric_information.item() == MINIMIZE` holds. -/
def tellFitness (ps : ProblemStatement) (batch : List Trial) : List Int :=
  let labels := batch.map (fun t => t.objective)
  if metricInfoEqGoal ps.metric_information ObjectiveMetricGoal.MINIMIZE then
    labels.map Int.neg
  else
    labels

/-- One iteration of the `while` loop body of `update`:
`self._trial_population.put(t)`, then, if the queue is full
(size reached `maxsize = popSize`), one `tell` on the whole buffer followed by
`self._trial_population.queue.clear()`. With `popSize = 0` the Python queue is
unbounded and `full()` is never true; the `length = 0` test below is likewise
never true after an append. -/
def putTrial (ps : ProblemStatement) (s : CMAESState) (t : Trial) : CMAESState :=
  let buf := s.buffer ++ [t]
  if buf.length = s.popSize then
    { s with
      buffer := [],
      told := s.told ++ [buf],
      fitnessLog := s.fitnessLog ++ [tellFitness ps buf] }
  else
    { s with buffer := buf }

/-- Embeds `CMAESDesigner.update(trials)`: the loop
`while completed_trials: self._trial_population.put(completed_trials.pop())`
pops from the END of the list, so the trials are processed in reverse input
order. -/
def update (ps : ProblemStatement) (s : CMAESState) (trials : List Trial) :
    CMAESState :=
  trials.reverse.foldl (putTrial ps) s

/-! ## CMAESDesigner.suggest (`cmaes.py` lines 78–96) -/

/-- Embeds `count = count or 1` (line 89): Python's `or` replaces a falsy `count`
(`None` or `0`) by `1`. -/
def effectiveCount : Option Nat → Nat
  | none => 1
  | some 0 => 1
  | some n => n

/-- Embeds `CMAESDesigner.suggest(count)`: ask the backend for `count or 1`
solutions, then map each returned solution through
`self._converter.to_parameters` into a `vz.TrialSuggestion`. The external
evo-jax backend `ask` and the converter are out of the excerpt's scope and
enter as parameters (the spec's Designer contract makes `ask` best-effort:
at most the requested number of solutions). -/
def suggest (ask : Nat → List (List Int)) (toParameters : List Int → List Int)
    (count : Option Nat) : List (List Int) :=
  (ask (effectiveCount count)).map toParameters

/-! ## DefaultVizierService.__init__ (`vizier_service.py`) -/

/-- The configuration and wiring produced by `DefaultVizierService.__init__`.
The servicer objects (`vizier_server.VizierService`, `pythia_server.PythiaService`)
are not part of the excerpt; per the spec (§2, §9: "each is told the other's
address and stores it as configuration state") each servicer is modelled as the
endpoint string it stores via `connect_to_pythia` / `connect_to_vizier`.
Durations are embedded in microseconds, the resolution of Python's
`datetime.timedelta` (`timedelta(seconds=0.1)` stores exactly 100000 µs). -/
structure DefaultVizierServiceState where
  host : String
  port : Nat
  pythiaPort : Nat
  earlyStopRecyclePeriodUs : Nat
  vizierMaxWorkers : Nat
  pythiaMaxWorkers : Nat
  servicerPythiaEndpoint : String
  pythiaServicerVizierEndpoint : String
deriving DecidableEq, Repr

/-- Embeds `DefaultVizierService.endpoint`: the f-string with host and port
joined by a colon. -/
def serviceEndpoint (host : String) (port : Nat) : String :=
  host ++ ":" ++ toString port

/-- Embeds `DefaultVizierService.__init__`: field defaults
(`_early_stop_recycle_period = datetime.timedelta(seconds=0.1)`, i.e.
100000 µs), the two `grpc.server(futures.ThreadPoolExecutor(max_workers=...))`
calls with `max_workers=30` for the Vizier server and `max_workers=1` for the
Pythia server, and the final handshake
`self._servicer.connect_to_pythia(self.pythia_endpoint)` /
`self._pythia_servicer.connect_to_vizier(self.endpoint)`.
Modelled from the spec: the storage effect of `connect_to_pythia` and
`connect_to_vizier` (defined in `vizier_server.py` / `pythia_server.py`, which
are outside the excerpt) is that each servicer records the given address. -/
def defaultVizierServiceInit (host : String) (port pythiaPort : Nat) :
    DefaultVizierServiceState :=
  { host := host
    port := port
    pythiaPort := pythiaPort
    earlyStopRecyclePeriodUs := 100000
    vizierMaxWorkers := 30
    pythiaMaxWorkers := 1
    servicerPythiaEndpoint := serviceEndpoint host pythiaPort
    pythiaServicerVizierEndpoint := serviceEndpoint host port }

/-- Embeds `DefaultVizierService.wait_for_early_stop_recycle_period`: sleeps for
`self._early_stop_recycle_period.total_seconds()`; modelled as returning the
duration slept, in microseconds. -/
def waitForEarlyStopRecyclePeriod (s : DefaultVizierServiceState) : Nat :=
  s.earlyStopRecyclePeriodUs

/-! ## Datastore UpdateMetadata (modelled from the spec)

The store implementation (`datastore.py`) is not part of the excerpt — only
its test `datastore_test.py` is — so the merge is modelled from the spec:
§4.1 "`UpdateMetadata(study_name, study_metadata, trial_metadata)`: merges
key/value entries into the Study's and into the named Trials' metadata;
unknown trial ids fail with NotFound but do not roll back entries already
merged for other trials", §3 "update is a merge, not a replace". -/

/-- One `key_value_pb2.KeyValue` entry: key, namespace, value. -/
structure KeyValue where
  key : String
  ns : String
  value : String
deriving DecidableEq, Repr

/-- One `UpdateMetadataRequest.KeyValuePlus` entry: a target trial id and a
key/value entry. -/
structure KeyValuePlus where
  trial_id : String
  k_v : KeyValue
deriving DecidableEq, Repr

/-- Metadata attached to a study or trial: a partial map from a
(namespace, key) pair to a value (spec §3: namespaced key/value pairs, keys
not required unique across namespaces). -/
def Metadata : Type := String × String → Option String

/-- Modelled from the spec: merging one key/value entry into metadata stores
the value under its (namespace, key) pair, overwriting any previous value
there and leaving every other pair untouched. -/
def mergeKV (m : Metadata) (kv : KeyValue) : Metadata :=
  fun nk => if nk = (kv.ns, kv.key) then some kv.value else m nk

/-- Modelled from the spec: merging a payload merges its entries in order. -/
def mergeMetadata (m : Metadata) (payload : List KeyValue) : Metadata :=
  payload.foldl mergeKV m

/-- The datastore state touched by `UpdateMetadata`: the study's metadata and
each trial's metadata, with an existence predicate on trial ids (unknown ids
are reported NotFound and their metadata untouched). -/
structure StoreState where
  studyMeta : Metadata
  trialExists : String → Bool
  trialMeta : String → Metadata

/-- Modelled from the spec: `UpdateMetadata(study_name, study_metadata,
trial_metadata)` merges `study_metadata` into the study's metadata and, for
each existing trial, merges the entries addressed to it (in payload order);
entries addressed to unknown trial ids are skipped (NotFound) without rolling
back the rest. -/
def updateMetadata (st : StoreState) (studyKVs : List KeyValue)
    (trialKVs : List KeyValuePlus) : StoreState :=
  { studyMeta := mergeMetadata st.studyMeta studyKVs
    trialExists := st.trialExists
    trialMeta := fun tid =>
      if st.trialExists tid then
        mergeMetadata (st.trialMeta tid)
          ((trialKVs.filter (fun kvp => kvp.trial_id = tid)).map
            (fun kvp => kvp.k_v))
      else
        st.trialMeta tid }

/-! ## Helper lemmas about the accumulator -/

theorem putTrial_full (ps : ProblemStatement) (s : CMAESState) (t : Trial)
    (h : s.buffer.length + 1 = s.popSize) :
    putTrial ps s t =
      { s with
        buffer := [],
        told := s.told ++ [s.buffer ++ [t]],
        fitnessLog := s.fitnessLog ++ [tellFitness ps (s.buffer ++ [t])] } := by
  simp [putTrial, h]

theorem putTrial_not_full (ps : ProblemStatement) (s : CMAESState) (t : Trial)
    (h : s.buffer.length + 1 ≠ s.popSize) :
    putTrial ps s t = { s with buffer := s.buffer ++ [t] } := by
  simp [putTrial, h]

/-- Main invariant of the put loop: starting from any state whose buffer is
strictly below capacity, folding `putTrial` over a list of trials keeps the
capacity, leaves `(initial + processed) mod P` trials buffered, loses no trial
(the consumed batches plus the remaining buffer are exactly the old contents
followed by the processed trials, in processing order), fires
`(initial + processed) div P` backend updates, and every fired batch has
exactly `P` trials. -/
theorem foldPut_spec (ps : ProblemStatement) (ts : List Trial) :
    ∀ s : CMAESState, s.buffer.length < s.popSize →
      (ts.foldl (putTrial ps) s).popSize = s.popSize ∧
      (ts.foldl (putTrial ps) s).buffer.length
        = (s.buffer.length + ts.length) % s.popSize ∧
      (ts.foldl (putTrial ps) s).told.flatten ++ (ts.foldl (putTrial ps) s).buffer
        = s.told.flatten ++ s.buffer ++ ts ∧
      (ts.foldl (putTrial ps) s).told.length
        = s.told.length + (s.buffer.length + ts.length) / s.popSize ∧
      (∀ b ∈ (ts.foldl (putTrial ps) s).told, b ∈ s.told ∨ b.length = s.popSize) := by
  induction ts with
  | nil =>
    intro s hs
    refine ⟨rfl, ?_, by simp, ?_, fun b hb => Or.inl hb⟩
    · simp [Nat.mod_eq_of_lt hs]
    · simp [Nat.div_eq_of_lt hs]
  | cons t ts ih =>
    intro s hs
    have hP : 0 < s.popSize := by omega
    rw [List.foldl_cons]
    by_cases hfull : s.buffer.length + 1 = s.popSize
    · rw [putTrial_full ps s t hfull]
      have hrec := ih { s with
        buffer := [],
        told := s.told ++ [s.buffer ++ [t]],
        fitnessLog := s.fitnessLog ++ [tellFitness ps (s.buffer ++ [t])] }
        (by simpa using hP)
      obtain ⟨h1, h2, h3, h4, h5⟩ := hrec
      refine ⟨by simpa using h1, ?_, ?_, ?_, ?_⟩
      · rw [h2]
        have harith : s.buffer.length + (t :: ts).length = ts.length + s.popSize := by
          simp [List.length_cons]; omega
        simp only [harith]
        simp [Nat.add_mul_mod_self_right, Nat.add_mod_right]
      · rw [h3]
        simp
      · rw [h4]
        have harith : s.buffer.length + (t :: ts).length = ts.length + s.popSize := by
          simp [List.length_cons]; omega
        simp only [harith]
        rw [Nat.add_div_right _ hP]
        simp
        omega
      · intro b hb
        rcases h5 b hb with h | h
        · simp at h
          rcases h with h | h
          · exact Or.inl h
          · refine Or.inr ?_
            subst h
            simp
            omega
        · exact Or.inr (by simpa using h)
    · rw [putTrial_not_full ps s t hfull]
      have hlt : s.buffer.length + 1 < s.popSize := by omega
      have hrec := ih { s with buffer := s.buffer ++ [t] } (by simpa using hlt)
      obtain ⟨h1, h2, h3, h4, h5⟩ := hrec
      refine ⟨by simpa using h1, ?_, ?_, ?_, ?_⟩
      · rw [h2]
        dsimp only
        have harith : (s.buffer ++ [t]).length + ts.length
            = s.buffer.length + (t :: ts).length := by
          simp only [List.length_append, List.length_cons, List.length_nil]
          omega
        rw [harith]
      · rw [h3]
        simp
      · rw [h4]
        dsimp only
        have harith : (s.buffer ++ [t]).length + ts.length
            = s.buffer.length + (t :: ts).length := by
          simp only [List.length_append, List.length_cons, List.length_nil]
          omega
        rw [harith]
      · intro b hb
        rcases h5 b hb with h | h
        · exact Or.inl (by simpa using h)
        · exact Or.inr (by simpa using h)

/-- A sequence of `update` calls is the flat put-loop over the concatenation
of the reversed inputs (each call pops its own input from the end). -/
theorem runUpdates_eq_foldPut (ps : ProblemStatement) (Ls : List (List Trial)) :
    ∀ s : CMAESState,
      Ls.foldl (update ps) s = ((Ls.map List.reverse).flatten).foldl (putTrial ps) s := by
  induction Ls with
  | nil => intro s; rfl
  | cons L Ls ih =>
    intro s
    rw [List.foldl_cons, ih, List.map_cons, List.flatten_cons, List.foldl_append]
    rfl

/-- Concatenating the reversed input lists is a permutation of concatenating
the input lists themselves. -/
theorem flatten_map_reverse_perm (Ls : List (List Trial)) :
    List.Perm ((Ls.map List.reverse).flatten) Ls.flatten := by
  induction Ls with
  | nil => simp
  | cons L Ls ih =>
    rw [List.map_cons, List.flatten_cons, List.flatten_cons]
    exact List.Perm.append (List.reverse_perm L) ih

/-! ## Concrete fixtures (the spec §8 example scenario: 2 continuous
parameters, goal MINIMIZE, population size 4, measurements 5, 3, 7, 1) -/

def exampleSearchSpace : SearchSpace :=
  { is_conditional := false
    parameters := [{ name := "x", type := ParameterType.DOUBLE },
                   { name := "y", type := ParameterType.DOUBLE }] }

def psMinimize : ProblemStatement :=
  { search_space := exampleSearchSpace
    metric_information := { name := "objective", goal := ObjectiveMetricGoal.MINIMIZE } }

def psMaximize : ProblemStatement :=
  { search_space := exampleSearchSpace
    metric_information := { name := "objective", goal := ObjectiveMetricGoal.MAXIMIZE } }

def trial5 : Trial := { params := [0, 0], objective := 5 }
def trial3 : Trial := { params := [1, 0], objective := 3 }
def trial7 : Trial := { params := [0, 1], objective := 7 }
def trial1 : Trial := { params := [1, 1], objective := 1 }

/-! ## Helper lemmas about the metadata merge -/

/-- The value the last matching entry of a payload assigns to a
(namespace, key) pair, if any. -/
def lastVal : List KeyValue → String × String → Option String
  | [], _ => none
  | kv :: rest, nk =>
      match lastVal rest nk with
      | some v => some v
      | none => if nk = (kv.ns, kv.key) then some kv.value else none

/-- Pointwise description of the merge: a pair touched by the payload ends at
the last value the payload assigns to it; every other pair keeps its old
value. -/
theorem mergeMetadata_apply (payload : List KeyValue) :
    ∀ (m : Metadata) (nk : String × String),
      mergeMetadata m payload nk = (lastVal payload nk).elim (m nk) some := by
  induction payload with
  | nil => intro m nk; rfl
  | cons kv rest ih =>
    intro m nk
    have hstep : mergeMetadata m (kv :: rest) = mergeMetadata (mergeKV m kv) rest := rfl
    rw [hstep, ih]
    cases hlast : lastVal rest nk with
    | some v =>
      have hcons : lastVal (kv :: rest) nk = some v := by
        simp [lastVal, hlast]
      rw [hcons]
      rfl
    | none =>
      by_cases heq : nk = (kv.ns, kv.key)
      · subst heq
        have hcons : lastVal (kv :: rest) (kv.ns, kv.key) = some kv.value := by
          simp [lastVal, hlast]
        rw [hcons]
        simp [mergeKV]
      · have hcons : lastVal (kv :: rest) nk = none := by
          simp [lastVal, hlast, heq]
        rw [hcons]
        simp [mergeKV, heq]

/-- Merging the same payload twice is the same as merging it once. -/
theorem mergeMetadata_idem (m : Metadata) (payload : List KeyValue) :
    mergeMetadata (mergeMetadata m payload) payload = mergeMetadata m payload := by
  funext nk
  rw [mergeMetadata_apply, mergeMetadata_apply]
  cases hlast : lastVal payload nk with
  | some v => rfl
  | none => rfl

/-! ## Claim theorems -/

/-- C1 (code-bug evidence): line 68 of `cmaes.py` compares
`metric_information.item()` — a `MetricInformation` object — against the enum
member `ObjectiveMetricGoal.MINIMIZE` without projecting `.goal`, so the
condition is always false and the negation branch is dead code: the fitness
handed to the maximization-only backend always equals the raw objective
values, for MINIMIZE studies too. In the spec §8 scenario (goal MINIMIZE,
population size 4, measurements 5, 3, 7, 1) the one internal update hands the
backend the unnegated values [1, 7, 3, 5] (in processing order) rather than
their negations. -/
theorem cmaes_minimize_labels_not_negated :
    (∀ (ps : ProblemStatement) (batch : List Trial),
        tellFitness ps batch = batch.map (fun t => t.objective)) ∧
    (update psMinimize (initState 4) [trial5, trial3, trial7, trial1]).fitnessLog
      = [[1, 7, 3, 5]] ∧
    ([[(1 : Int), 7, 3, 5]] : List (List Int)) ≠ [[-1, -7, -3, -5]] := by
  refine ⟨?_, by decide, by decide⟩
  intro ps batch
  simp [tellFitness, metricInfoEqGoal]

/-- C2: starting from a fresh designer whose population size is P > 0, after
any sequence of `update` calls the buffer holds at most P trials, exactly
(total trials appended) mod P of them, and no trial is ever lost: the batches
consumed by the internal backend updates together with the remaining buffer
are a permutation of all trials ever appended (so each appended trial is
either still buffered or was consumed by exactly one internal update), even
when one call supplies more than P trials. -/
theorem cmaes_update_buffer_invariant (ps : ProblemStatement) (P : Nat)
    (hP : 0 < P) (Ls : List (List Trial)) :
    (Ls.foldl (update ps) (initState P)).buffer.length ≤ P ∧
    (Ls.foldl (update ps) (initState P)).buffer.length = Ls.flatten.length % P ∧
    List.Perm
      ((Ls.foldl (update ps) (initState P)).told.flatten
        ++ (Ls.foldl (update ps) (initState P)).buffer)
      Ls.flatten := by
  have hinit : (initState P).buffer.length < (initState P).popSize := by
    simpa [initState] using hP
  obtain ⟨h1, h2, h3, h4, h5⟩ :=
    foldPut_spec ps ((Ls.map List.reverse).flatten) (initState P) hinit
  rw [runUpdates_eq_foldPut ps Ls (initState P)]
  have hlen : ((Ls.map List.reverse).flatten).length = Ls.flatten.length :=
    (flatten_map_reverse_perm Ls).length_eq
  refine ⟨?_, ?_, ?_⟩
  · rw [h2]
    simp only [initState, Nat.zero_add]
    exact Nat.le_of_lt (Nat.mod_lt _ hP)
  · rw [h2]
    simp [initState, hlen]
  · have h3' : (((Ls.map List.reverse).flatten).foldl (putTrial ps)
          (initState P)).told.flatten
        ++ (((Ls.map List.reverse).flatten).foldl (putTrial ps)
          (initState P)).buffer
        = (Ls.map List.reverse).flatten := by
      simpa [initState] using h3
    rw [h3']
    exact flatten_map_reverse_perm Ls

/-- Witness for C2 at P = 2 with a single call supplying 3 trials (more than
one population), which fires one internal update and leaves 1 trial
buffered. -/
theorem cmaes_update_buffer_invariant_witness :
    0 < 2 ∧
    (([[trial5, trial3, trial7]].foldl (update psMaximize) (initState 2)).buffer.length ≤ 2 ∧
     ([[trial5, trial3, trial7]].foldl (update psMaximize) (initState 2)).buffer.length
       = [[trial5, trial3, trial7]].flatten.length % 2 ∧
     List.Perm
       (([[trial5, trial3, trial7]].foldl (update psMaximize) (initState 2)).told.flatten
         ++ ([[trial5, trial3, trial7]].foldl (update psMaximize) (initState 2)).buffer)
       [[trial5, trial3, trial7]].flatten) :=
  ⟨by decide,
   cmaes_update_buffer_invariant psMaximize 2 (by decide) [[trial5, trial3, trial7]]⟩

/-- C3 counterexample: the loop `self._trial_population.put(completed_trials.pop())`
pops from the END of the input list, so with a capacity-4 buffer and the
two-trial input [trial5, trial3] (no update fires) the buffer ends as
[trial3, trial5] — the REVERSE of the input order, not the input order the
claim states. -/
theorem cmaes_update_input_order_counterexample :
    (update psMaximize (initState 4) [trial5, trial3]).buffer = [trial3, trial5] ∧
    ([trial3, trial5] : List Trial) ≠ [trial5, trial3] := by
  exact ⟨by decide, by decide⟩

/-- C3 amended: from any state whose buffer is strictly below its capacity P,
`update` appends the newly completed trials in REVERSE input order, and
exactly each time the buffer reaches capacity P it performs exactly one
internal backend update consuming exactly the P buffered trials and clears
the buffer: the consumed batches plus the remaining buffer extend the old
contents by the reversed input, the number of internal updates grows by
(buffered + appended) div P, every consumed batch has exactly P trials, and
(buffered + appended) mod P trials remain buffered. -/
theorem cmaes_update_reverse_order_batching (ps : ProblemStatement)
    (s : CMAESState) (L : List Trial) (h : s.buffer.length < s.popSize) :
    (update ps s L).told.flatten ++ (update ps s L).buffer
      = s.told.flatten ++ s.buffer ++ L.reverse ∧
    (update ps s L).told.length
      = s.told.length + (s.buffer.length + L.length) / s.popSize ∧
    (∀ b ∈ (update ps s L).told, b ∈ s.told ∨ b.length = s.popSize) ∧
    (update ps s L).buffer.length = (s.buffer.length + L.length) % s.popSize := by
  obtain ⟨h1, h2, h3, h4, h5⟩ := foldPut_spec ps L.reverse s h
  have hlen : L.reverse.length = L.length := List.length_reverse L
  exact ⟨h3, by rw [← hlen]; exact h4, h5, by rw [← hlen]; exact h2⟩

/-- Witness for the amended C3: a fresh capacity-4 designer receiving two
trials buffers them in reverse input order and fires no update. -/
theorem cmaes_update_reverse_order_batching_witness :
    (initState 4).buffer.length < (initState 4).popSize ∧
    ((update psMaximize (initState 4) [trial5, trial3]).told.flatten
        ++ (update psMaximize (initState 4) [trial5, trial3]).buffer
      = (initState 4).told.flatten ++ (initState 4).buffer ++ [trial5, trial3].reverse ∧
     (update psMaximize (initState 4) [trial5, trial3]).told.length
       = (initState 4).told.length
         + ((initState 4).buffer.length + [trial5, trial3].length) / (initState 4).popSize ∧
     (∀ b ∈ (update psMaximize (initState 4) [trial5, trial3]).told,
        b ∈ (initState 4).told ∨ b.length = (initState 4).popSize) ∧
     (update psMaximize (initState 4) [trial5, trial3]).buffer.length
       = ((initState 4).buffer.length + [trial5, trial3].length) % (initState 4).popSize) :=
  ⟨by decide,
   cmaes_update_reverse_order_batching psMaximize (initState 4) [trial5, trial3]
     (by decide)⟩

/-- C4: `CMAESDesigner.__init__` validation succeeds exactly on flat
(non-conditional), all-DOUBLE search spaces with at least 2 parameters —
equivalently, it raises iff the space is conditional, or some parameter is
not DOUBLE, or there are fewer than 2 parameters. -/
theorem cmaes_init_validation_iff (ss : SearchSpace) :
    initValidate ss = Except.ok () ↔
      (ss.is_conditional = false ∧
       (∀ pc ∈ ss.parameters, pc.type = ParameterType.DOUBLE) ∧
       2 ≤ ss.parameters.length) := by
  constructor
  · intro h
    by_cases hcond : ss.is_conditional = true
    · simp [initValidate, hcond] at h
    · by_cases hany : ss.parameters.any (fun pc => pc.type != ParameterType.DOUBLE) = true
      · simp [initValidate, hcond, hany] at h
      · by_cases hlen : ss.parameters.length < 2
        · simp [initValidate, hcond, hany, hlen] at h
        · refine ⟨by simpa using hcond, ?_, by omega⟩
          intro pc hpc
          by_contra hne
          exact hany (List.any_eq_true.mpr ⟨pc, hpc, by simpa using hne⟩)
  · rintro ⟨hcond, hall, hlen⟩
    by_cases hany : ss.parameters.any (fun pc => pc.type != ParameterType.DOUBLE) = true
    · obtain ⟨pc, hpc, hne⟩ := List.any_eq_true.mp hany
      exact absurd (hall pc hpc) (by simpa using hne)
    · simp [initValidate, hcond, hany, Nat.not_lt.mpr hlen]

/-- Witness for C4 on the example search space (flat, two DOUBLE
parameters): construction succeeds. -/
theorem cmaes_init_validation_iff_witness :
    initValidate exampleSearchSpace = Except.ok () :=
  (cmaes_init_validation_iff exampleSearchSpace).mpr (by decide)

/-- C5: for every positive `count`, `suggest(count)` returns at most `count`
suggestions whenever the external backend `ask` is best-effort (returns at
most the requested number of solutions, as the spec's Designer contract
states), and if the backend returns exactly 2 solutions for a request of 2
then `suggest(2)` returns exactly 2 suggestions. -/
theorem cmaes_suggest_count_bound (ask : Nat → List (List Int))
    (toParameters : List Int → List Int) (count : Nat) (hpos : 0 < count)
    (hask : ∀ n, (ask n).length ≤ n) :
    (suggest ask toParameters (some count)).length ≤ count ∧
    ((ask 2).length = 2 → (suggest ask toParameters (some 2)).length = 2) := by
  have heff : effectiveCount (some count) = count := by
    cases count with
    | zero => exact absurd hpos (by decide)
    | succ n => rfl
  constructor
  · rw [suggest, List.length_map, heff]
    exact hask count
  · intro h2
    rw [suggest, List.length_map]
    exact h2

/-- Witness for C5 with a backend returning exactly the requested number of
solutions and `count = 2`. -/
theorem cmaes_suggest_count_bound_witness :
    0 < 2 ∧
    (∀ n, ((fun k => List.replicate k ([] : List Int)) n).length ≤ n) ∧
    ((suggest (fun k => List.replicate k ([] : List Int)) id (some 2)).length ≤ 2 ∧
     (((fun k => List.replicate k ([] : List Int)) 2).length = 2 →
       (suggest (fun k => List.replicate k ([] : List Int)) id (some 2)).length = 2)) :=
  ⟨by decide, fun n => by simp,
   cmaes_suggest_count_bound (fun k => List.replicate k ([] : List Int)) id 2
     (by decide) (fun n => by simp)⟩

/-- C6: `DefaultVizierService.__init__` builds the Pythia (AlgorithmExecutor)
gRPC server with exactly 1 worker thread and the Vizier (StudyManager) gRPC
server with a pool of 30 workers. -/
theorem vizier_service_worker_pools (host : String) (port pythiaPort : Nat) :
    (defaultVizierServiceInit host port pythiaPort).pythiaMaxWorkers = 1 ∧
    (defaultVizierServiceInit host port pythiaPort).vizierMaxWorkers = 30 :=
  ⟨rfl, rfl⟩

/-- C7: the recycle period configured by `DefaultVizierService` defaults to
100 ms (100000 µs, i.e. `timedelta(seconds=0.1)`), and
`wait_for_early_stop_recycle_period` waits out exactly that period. -/
theorem vizier_service_recycle_period (host : String) (port pythiaPort : Nat) :
    (defaultVizierServiceInit host port pythiaPort).earlyStopRecyclePeriodUs
      = 100 * 1000 ∧
    waitForEarlyStopRecyclePeriod (defaultVizierServiceInit host port pythiaPort)
      = (defaultVizierServiceInit host port pythiaPort).earlyStopRecyclePeriodUs :=
  ⟨rfl, rfl⟩

/-- C8: `UpdateMetadata` is a merge and is idempotent — applying the same
payload (study entries plus per-trial entries) twice yields exactly the same
final study and trial metadata as applying it once. -/
theorem updateMetadata_idempotent (st : StoreState) (studyKVs : List KeyValue)
    (trialKVs : List KeyValuePlus) :
    updateMetadata (updateMetadata st studyKVs trialKVs) studyKVs trialKVs
      = updateMetadata st studyKVs trialKVs := by
  unfold updateMetadata
  dsimp only
  congr 1
  · exact mergeMetadata_idem st.studyMeta studyKVs
  · funext tid
    by_cases hex : st.trialExists tid = true
    · simp [hex, mergeMetadata_idem]
    · simp [hex]

/-- C9: after `DefaultVizierService.__init__` returns, the endpoints have
been exchanged: the Vizier servicer stores the Pythia server's address
(`connect_to_pythia(self.pythia_endpoint)`) and the Pythia servicer stores
the Vizier server's address (`connect_to_vizier(self.endpoint)`). -/
theorem vizier_service_endpoint_handshake (host : String) (port pythiaPort : Nat) :
    (defaultVizierServiceInit host port pythiaPort).servicerPythiaEndpoint
      = serviceEndpoint host pythiaPort ∧
    (defaultVizierServiceInit host port pythiaPort).pythiaServicerVizierEndpoint
      = serviceEndpoint host port :=
  ⟨rfl, rfl⟩

/-- C10: a falsy `count` (`None` or `0`) is replaced by 1
(`count = count or 1`), so `suggest(None)` and `suggest(0)` each request
exactly one solution from the backend and behave identically to
`suggest(1)`. -/
theorem cmaes_suggest_falsy_count (ask : Nat → List (List Int))
    (toParameters : List Int → List Int) :
    suggest ask toParameters none = suggest ask toParameters (some 1) ∧
    suggest ask toParameters (some 0) = suggest ask toParameters (some 1) ∧
    effectiveCount none = 1 ∧ effectiveCount (some 0) = 1 :=
  ⟨rfl, rfl, rfl, rfl⟩

end Vizier
